import Mathlib

/-!
Verification of the rust-analyzer process bootstrap: the mode dispatcher
(`main`), the logging setup (`setup_logging`) and the server-mode handshake
(`run_server`) from `crates/rust-analyzer/src/bin/main.rs`, shallowly
embedded in Lean.  External collaborators (the URL library, the `Config`
type, capability negotiation and manifest discovery, which live outside the
provided source slice) are modelled from the specification where noted.
-/

namespace RABoot

/-- A filesystem path: an absoluteness flag plus path components.
Mirrors `std::path::PathBuf` at the level of detail the bootstrap needs. -/
structure FsPath where
  absolute : Bool
  components : List String
deriving DecidableEq, Repr

/-- A filesystem snapshot: the set of paths that exist at resolution time. -/
abbrev FsSnapshot := List FsPath

/-- `p` exists in the snapshot `fs`. -/
def fsExists (fs : FsSnapshot) (p : FsPath) : Bool := p ∈ fs

/-- A URI as the bootstrap sees it.  `url::Url::to_file_path` is pure string
manipulation on the URI (it consults no filesystem); we model the URI by the
outcome of that conversion: `none` when the URI is not a convertible
`file://` URL. -/
structure Uri where
  filePath : Option FsPath
deriving DecidableEq, Repr

/-- `url::Url::to_file_path`, returning `none` on failure
(in the source: `it.uri.to_file_path().ok()`). -/
def Uri.toFilePath (u : Uri) : Option FsPath := u.filePath

/-- Modelled from the spec: `vfs::AbsPathBuf::try_from` accepts exactly the
absolute filesystem paths ("each converted to an absolute filesystem path;
entries that fail conversion are dropped"); it consults no filesystem. -/
def absPathTryFrom (p : FsPath) : Option FsPath :=
  if p.absolute then some p else none

/-- Modelled from the spec: `vfs::AbsPathBuf::assert` requires an absolute
path; a non-absolute argument is a panic, modelled as `none`. -/
def absPathAssert (p : FsPath) : Option FsPath :=
  if p.absolute then some p else none

/-- A workspace folder from the initialize request (`lsp_types::WorkspaceFolder`). -/
structure WorkspaceFolder where
  uri : Uri
  name : String
deriving DecidableEq, Repr

/-- Client identity from the initialize request (`lsp_types::ClientInfo`). -/
structure ClientInfo where
  name : String
  version : Option String
deriving DecidableEq, Repr

/-- The client's declared capability set
(`lsp_types::ClientCapabilities`), reduced to the flags the bootstrap's
collaborators consult. -/
structure ClientCapabilities where
  codeActionLiteralSupport : Bool
  hierarchicalSymbols : Bool
  lineFoldingOnly : Bool
  locationLink : Bool
deriving DecidableEq, Repr

/-- The negotiated server capability set (`lsp_types::ServerCapabilities`). -/
structure ServerCapabilities where
  codeActionProvider : Bool
  hierarchicalSymbolsMode : Bool
  foldingLineOnly : Bool
deriving DecidableEq, Repr

/-- Modelled from the spec: `rust_analyzer::server_capabilities` (not in the
source slice) "computes ServerCapabilities purely from the client capability
set (pure function, no I/O)". -/
def serverCapabilities (c : ClientCapabilities) : ServerCapabilities :=
  { codeActionProvider := c.codeActionLiteralSupport
    hierarchicalSymbolsMode := c.hierarchicalSymbols
    foldingLineOnly := c.lineFoldingOnly }

/-- The build revision token baked in at compile time (`env!("REV")`). -/
def rev : String := "dev-rev"

/-- `lsp_types::ServerInfo`: static server identity. -/
structure ServerInfo where
  name : String
  version : Option String
deriving DecidableEq, Repr

/-- `lsp_types::InitializeResult`: the handshake response payload. -/
structure InitializeResult where
  capabilities : ServerCapabilities
  serverInfo : Option ServerInfo
deriving DecidableEq, Repr

/-- A manifest location: a filesystem location recognized as describing a
buildable project (external collaborator type `ra_project_model::ProjectManifest`). -/
abbrev Manifest := FsPath

/-- A linked project: wraps a manifest location
(`rust_analyzer::config::LinkedProject`). -/
structure LinkedProject where
  loc : FsPath
deriving DecidableEq, Repr

/-- `LinkedProject::from(ProjectManifest)`. -/
def LinkedProject.fromManifest (m : Manifest) : LinkedProject := ⟨m⟩

/-- The decoded initialization-options payload, reduced to the recognized
option keys the bootstrap's claims touch plus the unrecognized keys the
merge ignores.  `none` for a key means the key is absent from the payload. -/
structure InitOptions where
  linkedProjects : Option (List LinkedProject)
  lruCapacity : Option Nat
  unrecognizedKeys : List String
deriving DecidableEq, Repr

/-- `lsp_types::InitializeParams`: the decoded initialize request body. -/
structure InitializeParams where
  rootUri : Option Uri
  workspaceFolders : Option (List WorkspaceFolder)
  initializationOptions : Option InitOptions
  capabilities : ClientCapabilities
  clientInfo : Option ClientInfo
deriving DecidableEq, Repr

/-- The capability-derived flags stored in the configuration by `update_caps`. -/
structure CapFlags where
  locationLink : Bool
  lineFolding : Bool
deriving DecidableEq, Repr

/-- `rust_analyzer::config::Config`, reduced to the fields the bootstrap
reads or writes: root path, linked projects, a representative recognized
scalar option, and the capability-derived flags. -/
structure Config where
  rootPath : FsPath
  linkedProjects : List LinkedProject
  lruCapacity : Nat
  capFlags : CapFlags
deriving DecidableEq, Repr

/-- Modelled from the spec: `Config::new(root_path)` constructs the default
option set with the given root and no linked projects. -/
def Config.new (root : FsPath) : Config :=
  { rootPath := root
    linkedProjects := []
    lruCapacity := 128
    capFlags := { locationLink := false, lineFolding := false } }

/-- Modelled from the spec: `Config::update(json)` structurally merges the
initialization-options payload onto the current option set: "each recognized
option key independently overridden; unrecognized keys ignored rather than
rejected".  Capability flags are not options and are untouched. -/
def Config.update (c : Config) (o : InitOptions) : Config :=
  { c with
    linkedProjects := o.linkedProjects.getD c.linkedProjects
    lruCapacity := o.lruCapacity.getD c.lruCapacity }

/-- Modelled from the spec: capability flags are "derived only from the
declared client capability set". -/
def deriveCapFlags (caps : ClientCapabilities) : CapFlags :=
  { locationLink := caps.locationLink, lineFolding := caps.lineFoldingOnly }

/-- Modelled from the spec: `Config::update_caps(&caps)` sets the capability
flags from the client capability set, touching nothing else. -/
def Config.update_caps (c : Config) (caps : ClientCapabilities) : Config :=
  { c with capFlags := deriveCapFlags caps }

/-- The root-URI conversion chain of `run_server`:
`root_uri.and_then(to_file_path.ok).and_then(AbsPathBuf::try_from.ok)`. -/
def rootUriChain (rootUri : Option Uri) : Option FsPath :=
  (rootUri.bind Uri.toFilePath).bind absPathTryFrom

/-- Root-path resolution (main.rs lines 111-121): if the root URI converts
to an absolute path, use it; otherwise fetch the current working directory
(which may fail, `std::env::current_dir()?`) and assert it absolute. -/
def resolveRootPath (rootUri : Option Uri) (currentDir : Except String FsPath) :
    Except String FsPath :=
  match rootUriChain rootUri with
  | some it => .ok it
  | none =>
    match currentDir with
    | .error e => .error e
    | .ok cwd =>
      match absPathAssert cwd with
      | some p => .ok p
      | none => .error "AbsPathBuf::assert: path is not absolute"

/-- Modelled from the spec: `ProjectManifest::discover_all` runs manifest
discovery over every candidate root; "order of discovered projects follows
the order of candidate roots, then discovery order within each root".  The
per-root probe `discover` is the collaborator-provided filesystem probe. -/
def discoverAll (discover : FsPath → List Manifest) (roots : List FsPath) :
    List Manifest :=
  roots.flatMap discover

/-- The configuration after `Config::new` plus the optional
`config.update(json)` plus `config.update_caps(&caps)`
(main.rs lines 123-127), in that source order. -/
def configAfterOptions (rootPath : FsPath) (p : InitializeParams) : Config :=
  let config := Config.new rootPath
  let config :=
    match p.initializationOptions with
    | some json => config.update json
    | none => config
  config.update_caps p.capabilities

/-- The `workspace_roots` computation of `run_server` (main.rs lines
130-140): workspace folder URIs converted to absolute paths with failures
dropped, the whole list discarded when empty, falling back to the config's
root path. -/
def workspaceRootsOf (p : InitializeParams) (config : Config) : List FsPath :=
  ((p.workspaceFolders.map fun workspaces =>
      workspaces.filterMap fun it =>
        (Uri.toFilePath it.uri).bind absPathTryFrom).filter
    fun workspaces => !workspaces.isEmpty).getD [config.rootPath]

/-- Linked-project population (main.rs lines 129-146): when the configuration
declares no linked projects, run discovery over the workspace roots and wrap
every discovered manifest; otherwise keep the configuration unchanged. -/
def configWithProjects (config : Config) (p : InitializeParams)
    (discover : FsPath → List Manifest) : Config :=
  if config.linkedProjects.isEmpty then
    { config with
      linkedProjects :=
        (discoverAll discover (workspaceRootsOf p config)).map
          LinkedProject.fromManifest }
  else config

/-- Configuration construction (main.rs lines 110-149): resolve the root,
build the default config, merge initialization options if present, derive
capability flags, then populate linked projects by discovery when none are
declared. -/
def buildConfig (p : InitializeParams) (currentDir : Except String FsPath)
    (discover : FsPath → List Manifest) : Except String Config :=
  match resolveRootPath p.rootUri currentDir with
  | .error e => .error e
  | .ok rootPath =>
    .ok (configWithProjects (configAfterOptions rootPath p) p discover)

/-- The handshake response payload (main.rs lines 92-100): negotiated
capabilities plus static server identity. -/
def handshakeResponse (p : InitializeParams) : InitializeResult :=
  { capabilities := serverCapabilities p.capabilities
    serverInfo := some { name := "rust-analyzer", version := some rev } }

/-- Observable events of a `run_server` run, in order of occurrence. -/
inductive Event where
  /-- `connection.initialize_start()` returned the request with this id. -/
  | readInitialize (id : Nat)
  /-- `connection.initialize_finish(id, result)` wrote the response. -/
  | sentResponse (id : Nat) (resp : InitializeResult)
  /-- The `ResolvedConfig` was completed. -/
  | builtConfig (c : Config)
  /-- `rust_analyzer::main_loop(config, connection)` was invoked. -/
  | enteredMainLoop
  /-- `io_threads.join()` was invoked. -/
  | joinedIoThreads
deriving DecidableEq, Repr

/-- The environment a `run_server` run interacts with: the transport's
incoming request, the JSON decoder, the transport write outcome, the working
directory, the discovery probe, and the external collaborators' outcomes. -/
structure ServerEnv where
  /-- Outcome of `connection.initialize_start()`: request id and raw body. -/
  initStart : Except String (Nat × String)
  /-- `from_json::<InitializeParams>` applied to the raw body. -/
  decode : String → Except String InitializeParams
  /-- Outcome of `connection.initialize_finish` (transport write). -/
  sendResult : Except String Unit
  /-- Outcome of `std::env::current_dir()`. -/
  currentDir : Except String FsPath
  /-- The collaborator-provided per-root manifest probe. -/
  discover : FsPath → List Manifest
  /-- Outcome of the external steady-state loop `rust_analyzer::main_loop`. -/
  mainLoopResult : Except String Unit
  /-- Outcome of `io_threads.join()`. -/
  joinResult : Except String Unit

/-- `run_server` (main.rs lines 83-157) as a trace-producing function: the
ordered list of observable events together with the function's result.
Each `?` in the source is an early return propagating the error. -/
def runServer (env : ServerEnv) : List Event × Except String Unit :=
  match env.initStart with
  | .error e => ([], .error e)
  | .ok (id, raw) =>
    match env.decode raw with
    | .error e => ([.readInitialize id], .error e)
    | .ok params =>
      let resp := handshakeResponse params
      match env.sendResult with
      | .error e => ([.readInitialize id], .error e)
      | .ok () =>
        match buildConfig params env.currentDir env.discover with
        | .error e => ([.readInitialize id, .sentResponse id resp], .error e)
        | .ok config =>
          match env.mainLoopResult with
          | .error e =>
            ([.readInitialize id, .sentResponse id resp, .builtConfig config,
              .enteredMainLoop], .error e)
          | .ok () =>
            ([.readInitialize id, .sentResponse id resp, .builtConfig config,
              .enteredMainLoop, .joinedIoThreads], env.joinResult)

/-- The mode selector (`args::Command`): a closed variant over the operating
modes, each carrying its mode-specific parameters. -/
inductive Command where
  | runServerMode
  | procMacro
  | parse (noDump : Bool)
  | symbols
  | highlight (rainbow : Bool)
  | stats (randomize parallel memoryUsage : Bool) (only : Option String)
      (withDeps : Bool) (path : Option FsPath) (loadOutputDirs withProcMacro : Bool)
  | bench (memoryUsage : Bool) (path : Option FsPath) (what : String)
      (loadOutputDirs withProcMacro : Bool)
  | diagnostics (path : Option FsPath) (loadOutputDirs withProcMacro all : Bool)
  | ssr (rules : List String)
  | structuredSearch (patterns : List String) (debugSnippet : Option String)
  | version
deriving DecidableEq, Repr

/-- The collaborators a dispatched invocation may consult: the server-mode
environment and the outcomes of the macro-helper and batch collaborators. -/
structure MainEnv where
  serverEnv : ServerEnv
  procMacroResult : Except String Unit
  cliResult : Command → Except String Unit

/-- The observable outcome of a dispatched invocation: lines printed to
standard output, the server-mode event trace (empty unless the server mode
ran), and the result `main` returns. -/
structure MainOut where
  printed : List String
  serverTrace : List Event
  result : Except String Unit
deriving Repr

/-- The mode dispatcher of `main` (main.rs lines 25-72): a single
unconditional branch on the selector's variant invoking exactly one handler.
The `Version` arm prints the product name and build revision and succeeds. -/
def dispatch (cmd : Command) (env : MainEnv) : MainOut :=
  match cmd with
  | .runServerMode =>
    let (trace, r) := runServer env.serverEnv
    { printed := [], serverTrace := trace, result := r }
  | .procMacro => { printed := [], serverTrace := [], result := env.procMacroResult }
  | .version =>
    { printed := ["rust-analyzer " ++ rev], serverTrace := [], result := .ok () }
  | other => { printed := [], serverTrace := [], result := env.cliResult other }

/-- The process exit status determined by `main`'s `Result`: zero on `Ok`,
non-zero on `Err`. -/
def exitCode (r : Except String Unit) : Nat :=
  match r with
  | .ok () => 0
  | .error _ => 1

/-- The process environment: variable-name to value bindings. -/
abbrev OsEnv := List (String × String)

/-- Look up an environment variable. -/
def envLookup (env : OsEnv) (k : String) : Option String :=
  (env.find? fun kv => kv.1 == k).map Prod.snd

/-- `std::env::set_var`: bind `k` to `v`, shadowing any previous binding. -/
def envSet (env : OsEnv) (k v : String) : OsEnv := (k, v) :: env

/-- `setup_logging` (main.rs lines 76-81) as an environment transformer:
it writes `RUST_BACKTRACE=short`, then reads `RA_LOG` to configure the
logging collaborator (`env_logger::try_init_from_env("RA_LOG")`) and lets
`ra_prof::init()` configure profiling.  Returns the updated environment and
the list of variable names the source reads explicitly. -/
def setupLogging (env : OsEnv) : OsEnv × List String :=
  (envSet env "RUST_BACKTRACE" "short", ["RA_LOG"])

/-- Claim-side definition, following the specification's words for linked
projects: if the overlay already declares an explicit non-empty project
list, use it verbatim; otherwise the candidate roots are the workspace
folder locations that successfully convert to absolute paths, or, when that
set is empty, the resolved root path alone; then every manifest discovered
over the candidate roots, in candidate-root order, wrapped as a
`LinkedProject`. -/
def linkedProjectsSpec (p : InitializeParams) (rootPath : FsPath)
    (discover : FsPath → List Manifest) : List LinkedProject :=
  let declared := (p.initializationOptions.bind InitOptions.linkedProjects).getD []
  if declared ≠ [] then declared
  else
    let converted := ((p.workspaceFolders.getD []).filterMap fun it =>
      (Uri.toFilePath it.uri).bind absPathTryFrom)
    let candidates := if converted = [] then [rootPath] else converted
    (discoverAll discover candidates).map LinkedProject.fromManifest

/-- A well-behaved initialize request: root `/ws`, no workspace folders,
no initialization options. -/
def exampleParams : InitializeParams :=
  { rootUri := some ⟨some ⟨true, ["ws"]⟩⟩
    workspaceFolders := none
    initializationOptions := none
    capabilities := ⟨false, false, false, false⟩
    clientInfo := none }

/-- A server environment in which every collaborator succeeds except the
steady-state loop, which returns an error. -/
def loopFailEnv : ServerEnv :=
  { initStart := .ok (1, "body")
    decode := fun _ => .ok exampleParams
    sendResult := .ok ()
    currentDir := .ok ⟨true, ["cwd"]⟩
    discover := fun _ => []
    mainLoopResult := .error "main loop failed"
    joinResult := .ok () }

/-- A server environment whose initialize request body fails to decode. -/
def decodeFailEnv : ServerEnv :=
  { initStart := .ok (7, "garbage")
    decode := fun _ => .error "ProtocolDecodeError"
    sendResult := .ok ()
    currentDir := .ok ⟨true, ["cwd"]⟩
    discover := fun _ => []
    mainLoopResult := .ok ()
    joinResult := .ok () }

/-- An initialize request carrying initialization options that declare a
linked project, a recognized scalar override and an unrecognized key. -/
def exampleOptsParams : InitializeParams :=
  { rootUri := some ⟨some ⟨true, ["ws"]⟩⟩
    workspaceFolders := none
    initializationOptions :=
      some { linkedProjects := some [⟨⟨true, ["proj"]⟩⟩]
             lruCapacity := some 42
             unrecognizedKeys := ["someFutureOption"] }
    capabilities := ⟨true, false, true, true⟩
    clientInfo := none }

/-- The spec's scenario request: root location `/ws`, workspace folders `[]`,
no initialization options. -/
def scenarioParams : InitializeParams :=
  { rootUri := some ⟨some ⟨true, ["ws"]⟩⟩
    workspaceFolders := some []
    initializationOptions := none
    capabilities := ⟨false, false, false, false⟩
    clientInfo := none }

/-- A concrete discovery probe: every root yields the manifest
`<root>/Cargo.toml`. -/
def scenarioDiscover (r : FsPath) : List Manifest :=
  [⟨r.absolute, r.components ++ ["Cargo.toml"]⟩]

section Lemmas

/-- `AbsPathBuf::try_from` succeeds only on absolute paths. -/
theorem absPathTryFrom_absolute {x r : FsPath} (h : absPathTryFrom x = some r) :
    r.absolute = true := by
  unfold absPathTryFrom at h
  split at h
  · injection h with h'
    subst h'
    assumption
  · exact Option.noConfusion h

/-- `AbsPathBuf::assert` succeeds only on absolute paths. -/
theorem absPathAssert_absolute {x r : FsPath} (h : absPathAssert x = some r) :
    r.absolute = true := by
  unfold absPathAssert at h
  split at h
  · injection h with h'
    subst h'
    assumption
  · exact Option.noConfusion h

/-- The root-URI conversion chain yields only absolute paths. -/
theorem rootUriChain_absolute {u : Option Uri} {r : FsPath}
    (h : rootUriChain u = some r) : r.absolute = true := by
  unfold rootUriChain at h
  rcases Option.bind_eq_some.mp h with ⟨x, _, hr⟩
  exact absPathTryFrom_absolute hr

/-- A successfully resolved root path is absolute. -/
theorem resolveRootPath_absolute {u : Option Uri} {cd : Except String FsPath}
    {r : FsPath} (h : resolveRootPath u cd = .ok r) : r.absolute = true := by
  unfold resolveRootPath at h
  split at h
  · injection h with h'
    subst h'
    exact rootUriChain_absolute (by assumption)
  · split at h
    · exact Except.noConfusion h
    · split at h
      · injection h with h'
        subst h'
        exact absPathAssert_absolute (by assumption)
      · exact Except.noConfusion h

/-- Merging options and deriving capability flags does not change the root. -/
theorem configAfterOptions_rootPath (root : FsPath) (p : InitializeParams) :
    (configAfterOptions root p).rootPath = root := by
  unfold configAfterOptions
  cases p.initializationOptions <;> rfl

/-- After `update_caps`, the capability flags come from the client set. -/
theorem configAfterOptions_capFlags (root : FsPath) (p : InitializeParams) :
    (configAfterOptions root p).capFlags = deriveCapFlags p.capabilities := by
  unfold configAfterOptions
  cases p.initializationOptions <;> rfl

/-- After the option merge, the linked projects are exactly the declared
list of the initialization options, or empty when absent. -/
theorem configAfterOptions_linkedProjects (root : FsPath) (p : InitializeParams) :
    (configAfterOptions root p).linkedProjects =
      (p.initializationOptions.bind InitOptions.linkedProjects).getD [] := by
  unfold configAfterOptions
  cases h : p.initializationOptions with
  | none => rfl
  | some json =>
    show (json.linkedProjects.getD []) = (json.linkedProjects.getD [])
    rfl

/-- Linked-project population does not change the root. -/
theorem configWithProjects_rootPath (c : Config) (p : InitializeParams)
    (d : FsPath → List Manifest) : (configWithProjects c p d).rootPath = c.rootPath := by
  unfold configWithProjects
  split <;> rfl

/-- Linked-project population does not change the capability flags. -/
theorem configWithProjects_capFlags (c : Config) (p : InitializeParams)
    (d : FsPath → List Manifest) : (configWithProjects c p d).capFlags = c.capFlags := by
  unfold configWithProjects
  split <;> rfl

/-- A non-nil list is not empty. -/
theorem isEmpty_false_of_ne_nil {α : Type} {l : List α} (h : l ≠ []) :
    l.isEmpty = false := by
  cases l with
  | nil => exact absurd rfl h
  | cons a t => rfl

/-- The source's `workspace_roots` computation agrees with the claim's
candidate-root description: the successfully converted workspace folder
locations, or the root path alone when that set is empty. -/
theorem workspaceRootsOf_eq (p : InitializeParams) (c : Config) :
    workspaceRootsOf p c =
      (if ((p.workspaceFolders.getD []).filterMap fun it =>
            (Uri.toFilePath it.uri).bind absPathTryFrom) = []
       then [c.rootPath]
       else (p.workspaceFolders.getD []).filterMap fun it =>
         (Uri.toFilePath it.uri).bind absPathTryFrom) := by
  unfold workspaceRootsOf
  cases hw : p.workspaceFolders with
  | none => rfl
  | some ws =>
    by_cases hl : (ws.filterMap fun it => (Uri.toFilePath it.uri).bind absPathTryFrom) = []
    · simp [Option.filter, hl]
    · simp [Option.filter, hl, isEmpty_false_of_ne_nil hl]

end Lemmas

/-- C2: root-path resolution. If the root location converts to a valid
absolute path that path becomes the root; otherwise the current working
directory is used; with no declared root the result is the working
directory; whenever the working directory is available and absolute,
resolution succeeds with some root — there is no "no root" outcome. -/
theorem c2_root_path_resolution (u : Option Uri) (cd : Except String FsPath) :
    (∀ p, rootUriChain u = some p → resolveRootPath u cd = .ok p) ∧
    (rootUriChain u = none → ∀ cwd, cd = .ok cwd → cwd.absolute = true →
      resolveRootPath u cd = .ok cwd) ∧
    (∀ cwd : FsPath, cwd.absolute = true →
      resolveRootPath none (.ok cwd) = .ok cwd) ∧
    (∀ cwd : FsPath, cwd.absolute = true →
      ∃ r, resolveRootPath u (.ok cwd) = .ok r) := by
  refine ⟨?_, ?_, ?_, ?_⟩
  · intro p hp
    unfold resolveRootPath
    rw [hp]
  · intro hn cwd hcd habs
    unfold resolveRootPath
    rw [hn, hcd]
    simp [absPathAssert, habs]
  · intro cwd habs
    show resolveRootPath none (.ok cwd) = .ok cwd
    unfold resolveRootPath
    simp [rootUriChain, absPathAssert, habs]
  · intro cwd habs
    cases hc : rootUriChain u with
    | some it =>
      refine ⟨it, ?_⟩
      unfold resolveRootPath
      rw [hc]
    | none =>
      refine ⟨cwd, ?_⟩
      unfold resolveRootPath
      rw [hc]
      simp [absPathAssert, habs]

/-- Concrete instantiation of the root-path resolution theorem: a root URI
for `/ws` wins over the working directory, and with no root URI the
working directory `/cwd` is used. -/
theorem c2_root_path_resolution_witness :
    resolveRootPath (some ⟨some ⟨true, ["ws"]⟩⟩) (.ok ⟨true, ["cwd"]⟩)
      = .ok ⟨true, ["ws"]⟩ ∧
    resolveRootPath none (.ok ⟨true, ["cwd"]⟩) = .ok ⟨true, ["cwd"]⟩ :=
  ⟨(c2_root_path_resolution (some ⟨some ⟨true, ["ws"]⟩⟩) (.ok ⟨true, ["cwd"]⟩)).1
      ⟨true, ["ws"]⟩ (by decide),
   (c2_root_path_resolution none (.ok ⟨true, ["cwd"]⟩)).2.2.1 ⟨true, ["cwd"]⟩ rfl⟩

/-- C4 fails as stated: construction succeeds for a declared root naming
`/nonexistent`, storing that root verbatim, even against a filesystem
snapshot (containing only `/home`) in which the root does not exist —
the conversion chain never consults the filesystem. -/
theorem c4_counterexample :
    (buildConfig
        { rootUri := some ⟨some ⟨true, ["nonexistent"]⟩⟩
          workspaceFolders := none
          initializationOptions := none
          capabilities := ⟨false, false, false, false⟩
          clientInfo := none }
        (.ok ⟨true, ["home"]⟩) (fun _ => [])).toOption.map Config.rootPath
      = some ⟨true, ["nonexistent"]⟩ ∧
    fsExists [⟨true, ["home"]⟩] ⟨true, ["nonexistent"]⟩ = false := by
  decide

/-- C4 amended: whenever configuration construction succeeds, the stored
root path is absolute (existence at resolution time is not guaranteed). -/
theorem c4_root_path_absolute (p : InitializeParams) (cd : Except String FsPath)
    (discover : FsPath → List Manifest) (c : Config)
    (h : buildConfig p cd discover = .ok c) : c.rootPath.absolute = true := by
  unfold buildConfig at h
  split at h
  · exact Except.noConfusion h
  · injection h with h'
    subst h'
    rw [configWithProjects_rootPath, configAfterOptions_rootPath]
    exact resolveRootPath_absolute (by assumption)

/-- Concrete instantiation of the amended root-path invariant at the
example request. -/
theorem c4_root_path_absolute_witness :
    ∃ c, buildConfig exampleParams (.ok ⟨true, ["cwd"]⟩) (fun _ => []) = .ok c ∧
      c.rootPath.absolute = true := by
  refine ⟨{ rootPath := ⟨true, ["ws"]⟩
            linkedProjects := []
            lruCapacity := 128
            capFlags := { locationLink := false, lineFolding := false } }, ?_, ?_⟩
  · rfl
  · exact c4_root_path_absolute exampleParams (.ok ⟨true, ["cwd"]⟩) (fun _ => []) _
      (by rfl)

/-- C1: linked-project resolution. Whenever configuration construction
succeeds, the linked projects equal the claim's description: a non-empty
list declared via initialization options is used verbatim, otherwise every
manifest discovered over the candidate roots (the successfully converted
workspace folders, or else the root path alone), in candidate-root order,
wrapped as a LinkedProject; moreover, when a non-empty list is declared the
result does not depend on the discovery probe at all (no discovery runs). -/
theorem c1_linked_projects_resolution (p : InitializeParams)
    (cd : Except String FsPath) (discover : FsPath → List Manifest) (c : Config)
    (h : buildConfig p cd discover = .ok c) :
    c.linkedProjects = linkedProjectsSpec p c.rootPath discover ∧
    ((p.initializationOptions.bind InitOptions.linkedProjects).getD [] ≠ [] →
      ∀ d2, buildConfig p cd d2 = buildConfig p cd discover) := by
  constructor
  · unfold buildConfig at h
    split at h
    · exact Except.noConfusion h
    · rename_i root hr
      injection h with h'
      subst h'
      rw [configWithProjects_rootPath, configAfterOptions_rootPath]
      by_cases hd : (p.initializationOptions.bind InitOptions.linkedProjects).getD [] = []
      · have he : (configAfterOptions root p).linkedProjects.isEmpty = true := by
          rw [configAfterOptions_linkedProjects, hd]
          rfl
        simp only [configWithProjects, he, if_true, linkedProjectsSpec, hd,
          ne_eq, not_true_eq_false, if_false, workspaceRootsOf_eq,
          configAfterOptions_rootPath]
      · have he : ((p.initializationOptions.bind InitOptions.linkedProjects).getD
            []).isEmpty = false := isEmpty_false_of_ne_nil hd
        simp only [configWithProjects, configAfterOptions_linkedProjects, he,
          Bool.false_eq_true, if_false, linkedProjectsSpec, hd, ne_eq,
          not_false_eq_true, if_true]
  · intro hd d2
    unfold buildConfig
    cases hr : resolveRootPath p.rootUri cd with
    | error e => rfl
    | ok root =>
      have he : (configAfterOptions root p).linkedProjects.isEmpty = false := by
        rw [configAfterOptions_linkedProjects]
        exact isEmpty_false_of_ne_nil hd
      simp [configWithProjects, he]

/-- Concrete instantiation of linked-project resolution at the spec's
scenario: root `/ws`, workspace folders `[]`, no options — discovery runs
rooted at `/ws` alone and yields `/ws/Cargo.toml`. -/
theorem c1_linked_projects_resolution_witness :
    ∃ c, buildConfig scenarioParams (.ok ⟨true, ["cwd"]⟩) scenarioDiscover = .ok c ∧
      c.linkedProjects = linkedProjectsSpec scenarioParams c.rootPath scenarioDiscover ∧
      c.linkedProjects = [⟨⟨true, ["ws", "Cargo.toml"]⟩⟩] := by
  refine ⟨_, rfl, ?_, ?_⟩
  · exact (c1_linked_projects_resolution scenarioParams (.ok ⟨true, ["cwd"]⟩)
      scenarioDiscover _ rfl).1
  · rfl

/-- C10: the initialization-options overlay is applied before the capability
flags are derived, so on every successful construction the capability flags
of the final configuration are exactly those computed from the client
capability set, whatever the options payload contains. -/
theorem c10_caps_not_overridable_by_options (p : InitializeParams)
    (cd : Except String FsPath) (discover : FsPath → List Manifest) (c : Config)
    (h : buildConfig p cd discover = .ok c) :
    c.capFlags = deriveCapFlags p.capabilities := by
  unfold buildConfig at h
  split at h
  · exact Except.noConfusion h
  · injection h with h'
    subst h'
    rw [configWithProjects_capFlags, configAfterOptions_capFlags]

/-- Concrete instantiation of the capability-flag invariant at a request
whose options payload declares projects, a scalar override and an
unrecognized key: the flags still come from the client capability set. -/
theorem c10_caps_not_overridable_by_options_witness :
    ∃ c, buildConfig exampleOptsParams (.ok ⟨true, ["cwd"]⟩) (fun _ => []) = .ok c ∧
      c.capFlags = deriveCapFlags exampleOptsParams.capabilities :=
  ⟨_, rfl, c10_caps_not_overridable_by_options exampleOptsParams
    (.ok ⟨true, ["cwd"]⟩) (fun _ => []) _ rfl⟩

/-- C3: a decode failure aborts the handshake fatally — the run result is
the decode error (so the process exits non-zero), no initialize response is
ever written on the transport, and no configuration is built. -/
theorem c3_decode_failure_fatal (env : ServerEnv) (id : Nat) (raw e : String)
    (pm : Except String Unit) (cli : Command → Except String Unit)
    (h1 : env.initStart = .ok (id, raw)) (h2 : env.decode raw = .error e) :
    runServer env = ([.readInitialize id], .error e) ∧
    (dispatch .runServerMode ⟨env, pm, cli⟩).result = .error e ∧
    exitCode (dispatch .runServerMode ⟨env, pm, cli⟩).result = 1 ∧
    (∀ i r, Event.sentResponse i r ∉ (dispatch .runServerMode ⟨env, pm, cli⟩).serverTrace) ∧
    (∀ cfg, Event.builtConfig cfg ∉ (dispatch .runServerMode ⟨env, pm, cli⟩).serverTrace) := by
  have hrun : runServer env = ([.readInitialize id], .error e) := by
    unfold runServer
    simp only [h1, h2]
  refine ⟨hrun, ?_, ?_, ?_, ?_⟩
  · simp [dispatch, hrun]
  · simp [dispatch, hrun, exitCode]
  · intro i r
    simp [dispatch, hrun]
  · intro cfg
    simp [dispatch, hrun]

/-- Concrete instantiation of the fatal-decode theorem: a malformed body
yields the decode error, exit status 1, and a trace containing only the
initial read. -/
theorem c3_decode_failure_fatal_witness :
    runServer decodeFailEnv = ([.readInitialize 7], .error "ProtocolDecodeError") ∧
    exitCode (dispatch .runServerMode
      ⟨decodeFailEnv, .ok (), fun _ => .ok ()⟩).result = 1 :=
  ⟨(c3_decode_failure_fatal decodeFailEnv 7 "garbage" "ProtocolDecodeError"
      (.ok ()) (fun _ => .ok ()) rfl rfl).1,
   (c3_decode_failure_fatal decodeFailEnv 7 "garbage" "ProtocolDecodeError"
      (.ok ()) (fun _ => .ok ()) rfl rfl).2.2.1⟩

/-- C5: handshake sequencing — every trace of `run_server` is a contiguous
initial segment of read, then the single correlated response, then
configuration completion, then main-loop entry, then the join; hence the
response is the only write before steady state, it precedes configuration
building, and the external loop is entered only after the configuration is
complete. -/
theorem c5_handshake_sequencing (env : ServerEnv) :
    ∃ id resp config rest,
      (runServer env).1 ++ rest =
        [Event.readInitialize id, Event.sentResponse id resp,
         Event.builtConfig config, Event.enteredMainLoop, Event.joinedIoThreads] := by
  cases h1 : env.initStart with
  | error e =>
    refine ⟨0, handshakeResponse exampleParams, Config.new ⟨true, []⟩,
      [Event.readInitialize 0,
       Event.sentResponse 0 (handshakeResponse exampleParams),
       Event.builtConfig (Config.new ⟨true, []⟩), Event.enteredMainLoop,
       Event.joinedIoThreads], ?_⟩
    unfold runServer
    simp only [h1]
    rfl
  | ok p =>
    obtain ⟨id, raw⟩ := p
    cases h2 : env.decode raw with
    | error e =>
      refine ⟨id, handshakeResponse exampleParams, Config.new ⟨true, []⟩,
        [Event.sentResponse id (handshakeResponse exampleParams),
         Event.builtConfig (Config.new ⟨true, []⟩), Event.enteredMainLoop,
         Event.joinedIoThreads], ?_⟩
      unfold runServer
      simp only [h1, h2]
      rfl
    | ok params =>
      cases h3 : env.sendResult with
      | error e =>
        refine ⟨id, handshakeResponse params, Config.new ⟨true, []⟩,
          [Event.sentResponse id (handshakeResponse params),
           Event.builtConfig (Config.new ⟨true, []⟩), Event.enteredMainLoop,
           Event.joinedIoThreads], ?_⟩
        unfold runServer
        simp only [h1, h2, h3]
        rfl
      | ok u =>
        cases u
        cases h4 : buildConfig params env.currentDir env.discover with
        | error e =>
          refine ⟨id, handshakeResponse params, Config.new ⟨true, []⟩,
            [Event.builtConfig (Config.new ⟨true, []⟩), Event.enteredMainLoop,
             Event.joinedIoThreads], ?_⟩
          unfold runServer
          simp only [h1, h2, h3, h4]
          rfl
        | ok config =>
          cases h5 : env.mainLoopResult with
          | error e =>
            refine ⟨id, handshakeResponse params, config,
              [Event.joinedIoThreads], ?_⟩
            unfold runServer
            simp only [h1, h2, h3, h4, h5]
            rfl
          | ok u2 =>
            cases u2
            refine ⟨id, handshakeResponse params, config, [], ?_⟩
            unfold runServer
            simp only [h1, h2, h3, h4, h5]
            rfl

/-- C6: the negotiated capabilities are a pure function of the client
capability set — requests agreeing on capabilities receive identical
responses, the payload embeds those capabilities plus the fixed server name
and a version string, and whenever a response is written it is exactly this
payload. -/
theorem c6_capabilities_pure_function :
    (∀ p1 p2 : InitializeParams, p1.capabilities = p2.capabilities →
      handshakeResponse p1 = handshakeResponse p2) ∧
    (∀ p : InitializeParams,
      (handshakeResponse p).capabilities = serverCapabilities p.capabilities ∧
      (handshakeResponse p).serverInfo =
        some { name := "rust-analyzer", version := some rev }) ∧
    (∀ (env : ServerEnv) (id : Nat) (raw : String) (params : InitializeParams),
      env.initStart = .ok (id, raw) → env.decode raw = .ok params →
      env.sendResult = .ok () →
      Event.sentResponse id (handshakeResponse params) ∈ (runServer env).1) := by
  refine ⟨?_, ?_, ?_⟩
  · intro p1 p2 h
    unfold handshakeResponse
    rw [h]
  · intro p
    exact ⟨rfl, rfl⟩
  · intro env id raw params h1 h2 h3
    cases h4 : buildConfig params env.currentDir env.discover with
    | error e =>
      unfold runServer
      simp [h1, h2, h3, h4]
    | ok config =>
      cases h5 : env.mainLoopResult with
      | error e =>
        unfold runServer
        simp [h1, h2, h3, h4, h5]
      | ok u =>
        cases u
        unfold runServer
        simp [h1, h2, h3, h4, h5]

/-- Concrete instantiation of capability purity: a request differing only in
client identity receives the identical response, which carries the fixed
server name and version. -/
theorem c6_capabilities_pure_function_witness :
    handshakeResponse exampleParams =
      handshakeResponse { exampleParams with clientInfo := some ⟨"emacs", none⟩ } ∧
    (handshakeResponse exampleParams).serverInfo =
      some { name := "rust-analyzer", version := some rev } :=
  ⟨c6_capabilities_pure_function.1 _ _ rfl,
   (c6_capabilities_pure_function.2.1 exampleParams).2⟩

/-- C7 fails as stated: in an otherwise fully successful environment whose
steady-state loop returns an error, `run_server` exits on the error path
without ever joining the transport's background threads. -/
theorem c7_counterexample :
    (runServer loopFailEnv).2 = .error "main loop failed" ∧
    Event.joinedIoThreads ∉ (runServer loopFailEnv).1 := by
  refine ⟨rfl, ?_⟩
  decide

/-- C7 amended: the background I/O threads are joined exactly on the normal
exit path — the join runs if and only if the steady-state loop was entered
and returned success; when the loop errors the error propagates before the
join. -/
theorem c7_join_only_on_normal_exit (env : ServerEnv) :
    Event.joinedIoThreads ∈ (runServer env).1 ↔
      (Event.enteredMainLoop ∈ (runServer env).1 ∧ env.mainLoopResult = .ok ()) := by
  cases h1 : env.initStart with
  | error e =>
    unfold runServer
    simp [h1]
  | ok p =>
    obtain ⟨id, raw⟩ := p
    cases h2 : env.decode raw with
    | error e =>
      unfold runServer
      simp [h1, h2]
    | ok params =>
      cases h3 : env.sendResult with
      | error e =>
        unfold runServer
        simp [h1, h2, h3]
      | ok u =>
        cases u
        cases h4 : buildConfig params env.currentDir env.discover with
        | error e =>
          unfold runServer
          simp [h1, h2, h3, h4]
        | ok config =>
          cases h5 : env.mainLoopResult with
          | error e =>
            unfold runServer
            simp [h1, h2, h3, h4, h5]
          | ok u2 =>
            cases u2
            unfold runServer
            simp [h1, h2, h3, h4, h5]

/-- C8 fails as stated: startup writes an environment variable — from an
environment with no `RUST_BACKTRACE` binding, `setup_logging` leaves the
variable bound to `short`. -/
theorem c8_counterexample :
    envLookup [] "RUST_BACKTRACE" = none ∧
    envLookup (setupLogging []).1 "RUST_BACKTRACE" = some "short" := by
  refine ⟨rfl, ?_⟩
  decide

/-- C8 amended: at startup the log-level variable `RA_LOG` is read to
configure the logging collaborator, the backtrace variable `RUST_BACKTRACE`
is written to `short`, and no other environment variable changes. -/
theorem c8_env_effects (env : OsEnv) (k : String) (hk : k ≠ "RUST_BACKTRACE") :
    envLookup (setupLogging env).1 k = envLookup env k ∧
    envLookup (setupLogging env).1 "RUST_BACKTRACE" = some "short" ∧
    (setupLogging env).2 = ["RA_LOG"] := by
  refine ⟨?_, ?_, rfl⟩
  · have hb : ("RUST_BACKTRACE" == k) = false :=
      beq_eq_false_iff_ne.mpr (Ne.symm hk)
    show envLookup (envSet env "RUST_BACKTRACE" "short") k = envLookup env k
    unfold envLookup envSet
    simp [List.find?, hb]
  · show envLookup (envSet env "RUST_BACKTRACE" "short") "RUST_BACKTRACE"
      = some "short"
    unfold envLookup envSet
    simp [List.find?]

/-- Concrete instantiation of the startup environment effects: `RA_LOG`
keeps its binding and `RUST_BACKTRACE` is set to `short`. -/
theorem c8_env_effects_witness :
    envLookup (setupLogging [("RA_LOG", "debug")]).1 "RA_LOG" = some "debug" ∧
    envLookup (setupLogging [("RA_LOG", "debug")]).1 "RUST_BACKTRACE" = some "short" :=
  ⟨(c8_env_effects [("RA_LOG", "debug")] "RA_LOG" (by decide)).1.trans (by decide),
   (c8_env_effects [("RA_LOG", "debug")] "RA_LOG" (by decide)).2.1⟩

/-- C9: an invocation classified as version mode prints the fixed product
name with the build revision token, runs no handshake and no transport
activity, and exits with status 0. -/
theorem c9_version_mode (env : MainEnv) :
    dispatch Command.version env =
      { printed := ["rust-analyzer " ++ rev], serverTrace := [], result := .ok () } ∧
    exitCode (dispatch Command.version env).result = 0 :=
  ⟨rfl, rfl⟩

end RABoot
